import Mathlib

/-!
Shallow embedding of the snake game in `src/main.rs`.

Scalars (`f32` in the source) are modelled as rationals `ℚ`; the `z`
coordinates of translations and scales are dropped, since the source only
uses them for render ordering and `collide` truncates them away.
The engine's thread-local random generator is modelled as an explicit
stream `ℕ → ℚ × ℚ` of coordinate pairs together with a cursor.
-/

namespace Snake

/-- A 2D vector with rational components (models `Vec2`, and the `x`/`y`
part of `Vec3`). -/
structure Vec2 where
  x : ℚ
  y : ℚ
deriving DecidableEq, Repr

/-- `TIME_STEP` (main.rs:8). -/
def TIME_STEP : ℚ := 1 / 60

/-- `SNAKE_SIZE` (main.rs:10), `z` dropped. -/
def SNAKE_SIZE : Vec2 := ⟨20, 20⟩

/-- `SNAKE_SPEED` (main.rs:12). -/
def SNAKE_SPEED : ℚ := 700

/-- `INITIAL_SNAKE_DIRECTION` (main.rs:13). -/
def INITIAL_SNAKE_DIRECTION : Vec2 := ⟨-(1 / 2), 0⟩

/-- `FOOD_SIZE` (main.rs:14), `z` dropped. -/
def FOOD_SIZE : Vec2 := ⟨20, 20⟩

/-- `LEFT_WALL` (main.rs:20). -/
def LEFT_WALL : ℚ := -450

/-- `RIGHT_WALL` (main.rs:21). -/
def RIGHT_WALL : ℚ := 450

/-- `BOTTOM_WALL` (main.rs:22). -/
def BOTTOM_WALL : ℚ := -300

/-- `TOP_WALL` (main.rs:23). -/
def TOP_WALL : ℚ := 300

/-- `WALL_THICKNESS` (main.rs:25). -/
def WALL_THICKNESS : ℚ := 10

/-- Normalization of an axis-aligned vector with `y = 0`: the length of
`(x, 0)` is `|x|`, so `normalize` divides by `|x|`. The source applies
`normalize` only to `INITIAL_SNAKE_DIRECTION = (-0.5, 0)`, which this
covers exactly (in `ℚ`, with no square root needed). -/
def Vec2.normalize (v : Vec2) : Vec2 := ⟨v.x / |v.x|, 0⟩

/-- The snake's velocity set in `setup` (main.rs:129):
`INITIAL_SNAKE_DIRECTION.normalize() * SNAKE_SPEED`. -/
def initialVelocity : Vec2 :=
  ⟨INITIAL_SNAKE_DIRECTION.normalize.x * SNAKE_SPEED,
   INITIAL_SNAKE_DIRECTION.normalize.y * SNAKE_SPEED⟩

/-- The spatial data of an entity: translation and scale (the parts of
bevy's `Transform` the game reads and writes), `z` dropped. -/
structure Transform where
  translation : Vec2
  scale : Vec2
deriving DecidableEq, Repr

/-- Per-tick keyboard state: `keyboard_input.pressed` for the four
directional keys polled in `move_snake`. -/
structure Keys where
  left : Bool
  right : Bool
  up : Bool
  down : Bool
deriving DecidableEq, Repr

/-- No directional key pressed. -/
def noKeys : Keys := ⟨false, false, false, false⟩

/-- `f32::clamp(min, max)` for `min ≤ max` (the source's bounds satisfy
this): below the range gives `min`, above gives `max`, inside is the
identity. -/
def clampQ (x lo hi : ℚ) : ℚ := if x < lo then lo else if x > hi then hi else x

/-- `left_bound` (main.rs:198). -/
def left_bound : ℚ := LEFT_WALL + WALL_THICKNESS + SNAKE_SIZE.x / 2.75

/-- `right_bound` (main.rs:199). -/
def right_bound : ℚ := RIGHT_WALL - WALL_THICKNESS - SNAKE_SIZE.x / 2.75

/-- `top_bound` (main.rs:200). -/
def top_bound : ℚ := TOP_WALL - WALL_THICKNESS - SNAKE_SIZE.y / 2.75

/-- `bottom_bound` (main.rs:201). -/
def bottom_bound : ℚ := BOTTOM_WALL + WALL_THICKNESS + SNAKE_SIZE.y / 2.75

/-- `move_snake` (main.rs:161-205) on the single snake's velocity and
transform: each pressed key adjusts the direction accumulator and
rewrites a velocity component (Left negates `x`; Right self-assigns `x`
under a guard; Up self-assigns `y`; Down negates `y`); the new position
is the old one plus `direction * SNAKE_SPEED * TIME_STEP`, clamped into
the inner-arena bounds. -/
def move_snake (keys : Keys) (vel : Vec2) (tr : Transform) : Vec2 × Transform :=
  let direction_x : ℚ := 0
  let direction_y : ℚ := 0
  let step1 :=
    if keys.left then (direction_x - 1, ({ vel with x := -vel.x } : Vec2))
    else (direction_x, vel)
  let step2 :=
    if keys.right then
      (step1.1 + 1, if step1.2.x < 0 then ({ step1.2 with x := step1.2.x } : Vec2) else step1.2)
    else step1
  let step3 :=
    if keys.up then (direction_y + 1, ({ step2.2 with y := step2.2.y } : Vec2))
    else (direction_y, step2.2)
  let step4 :=
    if keys.down then (step3.1 - 1, ({ step3.2 with y := -step3.2.y } : Vec2))
    else step3
  let new_snake_position := tr.translation.x + step2.1 * SNAKE_SPEED * TIME_STEP
  let new_snake_pos_vertical := tr.translation.y + step4.1 * SNAKE_SPEED * TIME_STEP
  (step4.2,
   { tr with translation :=
      ⟨clampQ new_snake_position left_bound right_bound,
       clampQ new_snake_pos_vertical bottom_bound top_bound⟩ })

/-- `apply_velocity` (main.rs:286-291) on one `(Transform, Velocity)`
pair: translation advances by `velocity * TIME_STEP` on each axis. -/
def apply_velocityT (vel : Vec2) (tr : Transform) : Transform :=
  { tr with translation :=
      ⟨tr.translation.x + vel.x * TIME_STEP, tr.translation.y + vel.y * TIME_STEP⟩ }

/-- Modelled from the spec: bevy's `collide_aabb::collide` overlap test
(engine code, not in this repository). Two centered axis-aligned boxes
overlap iff they intersect with positive extent on both axes; this
returns `true` exactly when the engine returns `Some` collision (the
penetrated side it also reports is unused by this game's logic). -/
def collide (aPos aSize bPos bSize : Vec2) : Bool :=
  decide (aPos.x - aSize.x / 2 < bPos.x + bSize.x / 2) &&
  decide (aPos.x + aSize.x / 2 > bPos.x - bSize.x / 2) &&
  decide (aPos.y - aSize.y / 2 < bPos.y + bSize.y / 2) &&
  decide (aPos.y + aSize.y / 2 > bPos.y - bSize.y / 2)

/-- Whether an entity in the collider set carries the `Food` marker
component (the `Option<&Food>` of the collider query, main.rs:239). -/
inductive ColliderKind where
  | wall : ColliderKind
  | food : ColliderKind
deriving DecidableEq, Repr

/-- An entity carrying the `Collider` marker: its transform and whether
it is tagged as food. -/
structure ColliderEnt where
  kind : ColliderKind
  transform : Transform
deriving DecidableEq, Repr

/-- `maybe_food.is_some()` for a collider entity. -/
def isFood (c : ColliderEnt) : Bool := c.kind == ColliderKind.food

/-- Number of live food entities in a collider set. -/
def foodCount (l : List ColliderEnt) : ℕ := (l.filter isFood).length

/-- The food entity spawned at `(food_x, food_y)`: tagged `Food` and
`Collider`, scale `FOOD_SIZE` (main.rs:135-150 and 264-276). -/
def spawnFood (fx fy : ℚ) : ColliderEnt :=
  ⟨ColliderKind.food, ⟨⟨fx, fy⟩, FOOD_SIZE⟩⟩

/-- The set of values rand's `gen_range(lo..hi)` on floats can return:
the half-open interval `lo ≤ x < hi`. -/
def gen_range (lo hi x : ℚ) : Prop := lo ≤ x ∧ x < hi

/-- A stream of random coordinate pairs standing for the thread-local
generator, with an explicit cursor. -/
def RngStream : Type := ℕ → ℚ × ℚ

/-- Output of the collider walk of `check_for_collisions`: the colliders
that survive (everything not despawned), the freshly spawned replacement
foods (bevy `Commands` defer them, so they are not revisited in the same
walk), the number of collision events sent, and the advanced rng
cursor. -/
structure CollOut where
  kept : List ColliderEnt
  spawned : List ColliderEnt
  events : ℕ
  rngNext : ℕ

/-- The loop of `check_for_collisions` (main.rs:246-283): for each
collider overlapping the snake, send one collision event; if it is
tagged food, despawn it and spawn one replacement at the next random
position; walls are never despawned. -/
def runCollisions (sPos sSize : Vec2) (rng : RngStream) :
    List ColliderEnt → ℕ → CollOut
  | [], i => ⟨[], [], 0, i⟩
  | c :: rest, i =>
    if collide sPos sSize c.transform.translation c.transform.scale then
      if isFood c then
        let p := rng i
        let o := runCollisions sPos sSize rng rest (i + 1)
        ⟨o.kept, spawnFood p.1 p.2 :: o.spawned, o.events + 1, o.rngNext⟩
      else
        let o := runCollisions sPos sSize rng rest i
        ⟨c :: o.kept, o.spawned, o.events + 1, o.rngNext⟩
    else
      let o := runCollisions sPos sSize rng rest i
      ⟨c :: o.kept, o.spawned, o.events, o.rngNext⟩

/-- The whole game state under the assumption of a single snake entity:
its velocity and transform, the collider set (walls and food), the
collision-event count, and the random stream with its cursor. -/
structure GameState where
  vel : Vec2
  snakeT : Transform
  colliders : List ColliderEnt
  events : ℕ
  rng : RngStream
  rngIdx : ℕ

/-- `move_snake` as a step on the game state. -/
def move_snakeS (keys : Keys) (g : GameState) : GameState :=
  let r := move_snake keys g.vel g.snakeT
  { g with vel := r.1, snakeT := r.2 }

/-- `apply_velocity` as a step on the game state (the snake is the only
entity carrying a `Velocity`). -/
def apply_velocityS (g : GameState) : GameState :=
  { g with snakeT := apply_velocityT g.vel g.snakeT }

/-- `check_for_collisions` as a step on the game state: runs the
collider walk with `snake_size = snake_transform.scale.truncate()`,
appends spawned foods, accumulates events, advances the rng cursor. -/
def check_for_collisionsS (g : GameState) : GameState :=
  let o := runCollisions g.snakeT.translation g.snakeT.scale g.rng g.colliders g.rngIdx
  { g with colliders := o.kept ++ o.spawned, events := g.events + o.events,
           rngIdx := o.rngNext }

/-- One fixed 60 Hz tick in the order the spec claims: input-driven
movement, then motion integration, then collision detection (main.rs
95-101 registers the three systems, constraining only the first two to
run before the third). -/
def tick (keys : Keys) (g : GameState) : GameState :=
  check_for_collisionsS (apply_velocityS (move_snakeS keys g))

/-- Iterated ticks over a list of per-tick keyboard states. -/
def runTicks (inputs : List Keys) (g : GameState) : GameState :=
  inputs.foldl (fun s k => tick k s) g

/-- `WallLocation` (main.rs:53-58). -/
inductive WallLocation where
  | Left : WallLocation
  | Right : WallLocation
  | Bottom : WallLocation
  | Top : WallLocation
deriving DecidableEq, Repr

/-- `WallLocation::position` (main.rs:61-68). -/
def WallLocation.position : WallLocation → Vec2
  | .Left => ⟨LEFT_WALL, 0⟩
  | .Right => ⟨RIGHT_WALL, 0⟩
  | .Bottom => ⟨0, BOTTOM_WALL⟩
  | .Top => ⟨0, TOP_WALL⟩

/-- `arena_height` (main.rs:71). -/
def arena_height : ℚ := TOP_WALL - BOTTOM_WALL

/-- `arena_width` (main.rs:72). -/
def arena_width : ℚ := RIGHT_WALL - LEFT_WALL

/-- `WallLocation::size` (main.rs:70-87); the asserts that
`arena_height` and `arena_width` are positive hold for the fixed
constants (`wall_asserts_hold` below). -/
def WallLocation.size : WallLocation → Vec2
  | .Left => ⟨WALL_THICKNESS, arena_height + WALL_THICKNESS⟩
  | .Right => ⟨WALL_THICKNESS, arena_height + WALL_THICKNESS⟩
  | .Bottom => ⟨arena_width + WALL_THICKNESS, WALL_THICKNESS⟩
  | .Top => ⟨arena_width + WALL_THICKNESS, WALL_THICKNESS⟩

/-- `WallBundle::new` (main.rs:207-234) as a collider entity: transform
from the location's position and size, tagged `Collider`, no food
marker. -/
def wallEnt (loc : WallLocation) : ColliderEnt :=
  ⟨ColliderKind.wall, ⟨loc.position, loc.size⟩⟩

/-- Lower-left corner of a wall's rectangle. -/
def wallMin (loc : WallLocation) : Vec2 :=
  ⟨loc.position.x - loc.size.x / 2, loc.position.y - loc.size.y / 2⟩

/-- Upper-right corner of a wall's rectangle. -/
def wallMax (loc : WallLocation) : Vec2 :=
  ⟨loc.position.x + loc.size.x / 2, loc.position.y + loc.size.y / 2⟩

/-- Membership in a wall's closed rectangle. -/
def inWall (loc : WallLocation) (p : Vec2) : Prop :=
  (wallMin loc).x ≤ p.x ∧ p.x ≤ (wallMax loc).x ∧
  (wallMin loc).y ≤ p.y ∧ p.y ≤ (wallMax loc).y

/-- Membership in the interior of a wall's rectangle; two walls sharing
an interior point overlap with positive area. -/
def inWallInterior (loc : WallLocation) (p : Vec2) : Prop :=
  (wallMin loc).x < p.x ∧ p.x < (wallMax loc).x ∧
  (wallMin loc).y < p.y ∧ p.y < (wallMax loc).y

/-- The border ring the four walls are meant to tile: inside the outer
frame (arena extended by half a wall thickness) but not in the open
inner arena (shrunk by half a wall thickness). -/
def inFrameRing (p : Vec2) : Prop :=
  (LEFT_WALL - WALL_THICKNESS / 2 ≤ p.x ∧ p.x ≤ RIGHT_WALL + WALL_THICKNESS / 2 ∧
   BOTTOM_WALL - WALL_THICKNESS / 2 ≤ p.y ∧ p.y ≤ TOP_WALL + WALL_THICKNESS / 2) ∧
  ¬(LEFT_WALL + WALL_THICKNESS / 2 < p.x ∧ p.x < RIGHT_WALL - WALL_THICKNESS / 2 ∧
    BOTTOM_WALL + WALL_THICKNESS / 2 < p.y ∧ p.y < TOP_WALL - WALL_THICKNESS / 2)

/-- Modelled from the spec: a position "strictly inside the arena"
(spec §3 and §8), i.e. strictly between the wall centerlines. -/
def strictlyInsideArena (p : Vec2) : Prop :=
  LEFT_WALL < p.x ∧ p.x < RIGHT_WALL ∧ BOTTOM_WALL < p.y ∧ p.y < TOP_WALL

/-- The game state `setup` (main.rs:107-159) creates: snake at the
origin with scale `SNAKE_SIZE` and the initial velocity, one food at
the first random position, and the four walls. -/
def setup (rng : RngStream) : GameState :=
  { vel := initialVelocity
    snakeT := ⟨⟨0, 0⟩, SNAKE_SIZE⟩
    colliders := [spawnFood (rng 0).1 (rng 0).2,
                  wallEnt .Left, wallEnt .Right, wallEnt .Bottom, wallEnt .Top]
    events := 0
    rng := rng
    rngIdx := 1 }

/-- `Query::single_mut` on the list of matching entities: panics (fails
loudly) unless exactly one entity matches the query. -/
def querySingle {α : Type} (l : List α) : Except String α :=
  match l with
  | [a] => Except.ok a
  | [] => Except.error "expected exactly one matching entity, found none"
  | _ => Except.error "expected exactly one matching entity, found several"

/-- ECS world view that does not assume a single snake: the list of
entities tagged `Snake` (velocity and transform), the collider set, the
event count, and the rng stream with cursor. -/
structure World where
  snakes : List (Vec2 × Transform)
  colliders : List ColliderEnt
  events : ℕ
  rng : RngStream
  rngIdx : ℕ

/-- `move_snake` at the world level: `query.single_mut()` (main.rs:164)
aborts the tick unless exactly one snake exists. -/
def move_snakeW (keys : Keys) (w : World) : Except String World :=
  match querySingle w.snakes with
  | Except.error e => Except.error e
  | Except.ok st =>
    let r := move_snake keys st.1 st.2
    Except.ok { w with snakes := [(r.1, r.2)] }

/-- `check_for_collisions` at the world level: `snake_query.single_mut()`
(main.rs:242) aborts the tick unless exactly one snake exists; the snake
entities themselves are read but never written. -/
def check_for_collisionsW (w : World) : Except String World :=
  match querySingle w.snakes with
  | Except.error e => Except.error e
  | Except.ok st =>
    let o := runCollisions st.2.translation st.2.scale w.rng w.colliders w.rngIdx
    Except.ok { w with colliders := o.kept ++ o.spawned,
                       events := w.events + o.events, rngIdx := o.rngNext }

/-- The three per-tick systems registered in `main` (main.rs:95-101). -/
inductive Sys where
  | move_snake : Sys
  | apply_velocity : Sys
  | check_for_collisions : Sys
deriving DecidableEq, Repr

/-- The ordering constraints `main` declares (main.rs:99-100):
`move_snake.before(check_for_collisions)` and
`apply_velocity.before(check_for_collisions)` — and nothing else. -/
def registeredBefore : List (Sys × Sys) :=
  [(Sys.move_snake, Sys.check_for_collisions),
   (Sys.apply_velocity, Sys.check_for_collisions)]

/-- A per-tick execution order the engine's scheduler may choose: some
permutation of the three registered systems that respects every declared
`before` constraint. -/
def validSchedule (l : List Sys) : Bool :=
  l.isPerm [Sys.check_for_collisions, Sys.move_snake, Sys.apply_velocity] &&
  registeredBefore.all (fun c => Nat.blt (l.indexOf c.1) (l.indexOf c.2))

/-- A constant random stream, for evaluating the systems at concrete
inputs. -/
def constRng (p : ℚ × ℚ) : RngStream := fun _ => p

/-- Concrete state for evaluation: the snake as `setup` creates it, no
colliders. -/
def g0 : GameState :=
  { vel := initialVelocity
    snakeT := ⟨⟨0, 0⟩, SNAKE_SIZE⟩
    colliders := []
    events := 0
    rng := constRng (0, 0)
    rngIdx := 0 }

/-- The inner play-area the bounds clamp targets (main.rs:198-204). -/
def inPlayBounds (p : Vec2) : Prop :=
  left_bound ≤ p.x ∧ p.x ≤ right_bound ∧ bottom_bound ≤ p.y ∧ p.y ≤ top_bound

/-- Only the Up key pressed. -/
def upOnly : Keys := ⟨false, false, true, false⟩

/-- Concrete snake transform for evaluation: at the origin with scale
`SNAKE_SIZE`, as `setup` creates it. -/
def tr0 : Transform := ⟨⟨0, 0⟩, SNAKE_SIZE⟩

/-- Concrete world with exactly one snake and no colliders, for
evaluation. -/
def w0 : World :=
  { snakes := [(initialVelocity, tr0)]
    colliders := []
    events := 0
    rng := constRng (0, 0)
    rngIdx := 0 }

end Snake

namespace Snake

/-! Helper lemmas shared by several results. -/

/-- Clamping into a nonempty interval lands in the interval. -/
theorem clampQ_mem (x lo hi : ℚ) (h : lo ≤ hi) :
    lo ≤ clampQ x lo hi ∧ clampQ x lo hi ≤ hi := by
  unfold clampQ
  split_ifs with h1 h2 <;> constructor <;> linarith

/-- Clamping is the identity inside the interval. -/
theorem clampQ_eq_self (x lo hi : ℚ) (h1 : lo ≤ x) (h2 : x ≤ hi) :
    clampQ x lo hi = x := by
  unfold clampQ
  split_ifs with ha hb <;> linarith

/-- The horizontal clamp interval is nonempty. -/
theorem left_bound_le_right_bound : left_bound ≤ right_bound := by
  norm_num [left_bound, right_bound, LEFT_WALL, RIGHT_WALL, WALL_THICKNESS, SNAKE_SIZE]

/-- The vertical clamp interval is nonempty. -/
theorem bottom_bound_le_top_bound : bottom_bound ≤ top_bound := by
  norm_num [bottom_bound, top_bound, TOP_WALL, BOTTOM_WALL, WALL_THICKNESS, SNAKE_SIZE]

/-- With no key pressed, `move_snake` keeps the velocity and clamps the
unchanged position. -/
theorem move_snake_noKeys (vel : Vec2) (tr : Transform) :
    move_snake noKeys vel tr =
      (vel, { tr with translation :=
        ⟨clampQ tr.translation.x left_bound right_bound,
         clampQ tr.translation.y bottom_bound top_bound⟩ }) := by
  simp [move_snake, noKeys]

/-- C2: after the bounds-clamp step of the player-movement update, for
every keyboard state, stored velocity and prior transform, the player's
position satisfies `left_bound ≤ x ≤ right_bound` and
`bottom_bound ≤ y ≤ top_bound`, the bounds being the ones derived from
the fixed constants in main.rs:198-201. -/
theorem C2_clamp_in_bounds (keys : Keys) (vel : Vec2) (tr : Transform) :
    left_bound ≤ (move_snake keys vel tr).2.translation.x ∧
    (move_snake keys vel tr).2.translation.x ≤ right_bound ∧
    bottom_bound ≤ (move_snake keys vel tr).2.translation.y ∧
    (move_snake keys vel tr).2.translation.y ≤ top_bound := by
  show left_bound ≤ clampQ _ left_bound right_bound ∧ _
  exact ⟨(clampQ_mem _ _ _ left_bound_le_right_bound).1,
         (clampQ_mem _ _ _ left_bound_le_right_bound).2,
         (clampQ_mem _ _ _ bottom_bound_le_top_bound).1,
         (clampQ_mem _ _ _ bottom_bound_le_top_bound).2⟩

/-- C1, counterexample: with the snake at the origin carrying the
initial velocity `(-0.5, 0).normalize() * 700 = (-700, 0)` and no key
pressed, one tick moves the player from `(0, 0)` to `(-35/3, 0)`:
`apply_velocity` integrates the stored velocity into the position every
tick, so the position at the end of the tick differs from the position
at its start. -/
theorem C1_counterexample :
    (tick noKeys g0).snakeT.translation ≠ g0.snakeT.translation ∧
    (tick noKeys g0).snakeT.translation = ⟨-(35 / 3), 0⟩ := by
  constructor
  · intro h
    have := congrArg Vec2.x h
    norm_num [tick, g0, move_snakeS, apply_velocityS, check_for_collisionsS,
      move_snake, noKeys, apply_velocityT, runCollisions, initialVelocity,
      INITIAL_SNAKE_DIRECTION, Vec2.normalize, SNAKE_SPEED, SNAKE_SIZE,
      TIME_STEP, clampQ, left_bound, right_bound, bottom_bound, top_bound,
      LEFT_WALL, RIGHT_WALL, TOP_WALL, BOTTOM_WALL, WALL_THICKNESS] at this
  · norm_num [tick, g0, move_snakeS, apply_velocityS, check_for_collisionsS,
      move_snake, noKeys, apply_velocityT, runCollisions, initialVelocity,
      INITIAL_SNAKE_DIRECTION, Vec2.normalize, SNAKE_SPEED, SNAKE_SIZE,
      TIME_STEP, clampQ, left_bound, right_bound, bottom_bound, top_bound,
      LEFT_WALL, RIGHT_WALL, TOP_WALL, BOTTOM_WALL, WALL_THICKNESS,
      abs_of_nonneg]

/-- C1, amended: on a tick with no directional key pressed the
`move_snake` step leaves the player's position unchanged whenever that
position already lies within the clamp bounds (the direction vector is
zero), but the stored velocity is still integrated by `apply_velocity`,
so by the end of the tick the position has drifted by
`velocity * TIME_STEP` on each axis. -/
theorem C1_amended (vel : Vec2) (tr : Transform) (h : inPlayBounds tr.translation) :
    (move_snake noKeys vel tr).2.translation = tr.translation ∧
    (apply_velocityT (move_snake noKeys vel tr).1
        (move_snake noKeys vel tr).2).translation =
      ⟨tr.translation.x + vel.x * TIME_STEP,
       tr.translation.y + vel.y * TIME_STEP⟩ := by
  obtain ⟨h1, h2, h3, h4⟩ := h
  rw [move_snake_noKeys]
  constructor
  · show (⟨clampQ tr.translation.x left_bound right_bound,
          clampQ tr.translation.y bottom_bound top_bound⟩ : Vec2) = _
    rw [clampQ_eq_self _ _ _ h1 h2, clampQ_eq_self _ _ _ h3 h4]
  · show (⟨clampQ tr.translation.x left_bound right_bound + vel.x * TIME_STEP,
          clampQ tr.translation.y bottom_bound top_bound + vel.y * TIME_STEP⟩ : Vec2) = _
    rw [clampQ_eq_self _ _ _ h1 h2, clampQ_eq_self _ _ _ h3 h4]

/-- Concrete evaluation of the no-keys movement behaviour at the origin
with the initial velocity. -/
theorem C1_witness :
    inPlayBounds (⟨0, 0⟩ : Vec2) ∧
    (apply_velocityT (move_snake noKeys (⟨-700, 0⟩ : Vec2) ⟨⟨0, 0⟩, SNAKE_SIZE⟩).1
        (move_snake noKeys (⟨-700, 0⟩ : Vec2) ⟨⟨0, 0⟩, SNAKE_SIZE⟩).2).translation =
      ⟨0 + -700 * TIME_STEP, 0 + 0 * TIME_STEP⟩ := by
  have h : inPlayBounds (⟨0, 0⟩ : Vec2) := by
    norm_num [inPlayBounds, left_bound, right_bound, bottom_bound, top_bound,
      LEFT_WALL, RIGHT_WALL, TOP_WALL, BOTTOM_WALL, WALL_THICKNESS, SNAKE_SIZE]
  exact ⟨h, (C1_amended ⟨-700, 0⟩ ⟨⟨0, 0⟩, SNAKE_SIZE⟩ h).2⟩

/-- The velocity `move_snake` stores: Left negates the `x` component,
Down negates the `y` component, and the Right and Up branches are
self-assignments that change nothing. -/
theorem move_snake_vel (keys : Keys) (vel : Vec2) (tr : Transform) :
    (move_snake keys vel tr).1 =
      ⟨if keys.left then -vel.x else vel.x,
       if keys.down then -vel.y else vel.y⟩ := by
  rcases keys with ⟨l, r, u, d⟩
  cases l <;> cases r <;> cases u <;> cases d <;>
    simp only [move_snake] <;> split_ifs <;> rfl

/-- Both absolute velocity components are invariant under `move_snake`. -/
theorem move_snake_vel_abs (keys : Keys) (vel : Vec2) (tr : Transform) :
    |(move_snake keys vel tr).1.x| = |vel.x| ∧
    |(move_snake keys vel tr).1.y| = |vel.y| := by
  rw [move_snake_vel]
  constructor <;> dsimp only <;> split_ifs <;> simp [abs_neg]

/-- C6, counterexample: with stored velocity `(3, 5)` and only the Up
key pressed, `move_snake` leaves the `y`-velocity at `5` instead of
negating it to `-5`: the Up branch (main.rs:182) is a self-assignment,
not a negation. -/
theorem C6_counterexample :
    (move_snake upOnly ⟨3, 5⟩ tr0).1.y = 5 ∧
    ¬ (move_snake upOnly ⟨3, 5⟩ tr0).1.y = -(5 : ℚ) := by
  decide

/-- C6, amended: on any tick, pressing Left negates the stored
`x`-velocity and pressing Down negates the stored `y`-velocity, while
pressing Right or Up leaves the respective component unchanged (their
assignments are self-assignments). -/
theorem C6_amended (keys : Keys) (vel : Vec2) (tr : Transform) :
    (move_snake keys vel tr).1.x = (if keys.left then -vel.x else vel.x) ∧
    (move_snake keys vel tr).1.y = (if keys.down then -vel.y else vel.y) := by
  rw [move_snake_vel]
  exact ⟨rfl, rfl⟩

/-- The velocity of the snake after one tick is what `move_snake`
stored: neither `apply_velocity` nor `check_for_collisions` writes it. -/
theorem tick_vel (keys : Keys) (g : GameState) :
    (tick keys g).vel = (move_snake keys g.vel g.snakeT).1 := rfl

/-- Iterating ticks preserves both absolute velocity components. -/
theorem runTicks_vel_abs (inputs : List Keys) (g : GameState) :
    |(runTicks inputs g).vel.x| = |g.vel.x| ∧
    |(runTicks inputs g).vel.y| = |g.vel.y| := by
  induction inputs generalizing g with
  | nil => exact ⟨rfl, rfl⟩
  | cons k ks ih =>
    have hstep := move_snake_vel_abs k g.vel g.snakeT
    have htail := ih (tick k g)
    have hrw : runTicks (k :: ks) g = runTicks ks (tick k g) := rfl
    rw [hrw]
    rw [htail.1, htail.2, tick_vel]
    exact hstep

/-- C10: pressing Right or Up never changes the stored velocity — with
Left and Down unpressed, `move_snake` returns the velocity unchanged for
every combination of the remaining keys — so only Left and Down ever
alter it, and both absolute components are invariant across all tick
sequences from the initial state: `|vx| = 700` and `|vy|` stays at its
initial value. -/
theorem C10_right_up_self_assign :
    (∀ (keys : Keys) (vel : Vec2) (tr : Transform),
        keys.left = false → keys.down = false →
        (move_snake keys vel tr).1 = vel) ∧
    (∀ (inputs : List Keys) (rng : RngStream),
        |(runTicks inputs (setup rng)).vel.x| = 700 ∧
        |(runTicks inputs (setup rng)).vel.y| = |initialVelocity.y|) := by
  constructor
  · intro keys vel tr hl hd
    rw [move_snake_vel, hl, hd]
    rfl
  · intro inputs rng
    have h := runTicks_vel_abs inputs (setup rng)
    have hx : |(setup rng).vel.x| = 700 := by
      show |initialVelocity.x| = 700
      norm_num [initialVelocity, INITIAL_SNAKE_DIRECTION, Vec2.normalize,
        SNAKE_SPEED, abs_of_nonneg, abs_neg]
    have hy : |(setup rng).vel.y| = |initialVelocity.y| := rfl
    exact ⟨h.1.trans hx, h.2.trans hy⟩

/-- Concrete evaluation of velocity inertness: Right and Up held with a
negative stored `x`-velocity, and one tick from the initial state. -/
theorem C10_witness :
    (⟨false, true, true, false⟩ : Keys).left = false ∧
    (⟨false, true, true, false⟩ : Keys).down = false ∧
    (move_snake ⟨false, true, true, false⟩ (⟨-700, 0⟩ : Vec2) tr0).1 = ⟨-700, 0⟩ ∧
    |(runTicks [upOnly] (setup (constRng (0, 0)))).vel.x| = 700 ∧
    |(runTicks [upOnly] (setup (constRng (0, 0)))).vel.y| = |initialVelocity.y| := by
  have h := C10_right_up_self_assign
  exact ⟨rfl, rfl, h.1 ⟨false, true, true, false⟩ ⟨-700, 0⟩ tr0 rfl rfl,
         h.2 [upOnly] (constRng (0, 0))⟩

/-- Food count distributes over list append. -/
theorem foodCount_append (a b : List ColliderEnt) :
    foodCount (a ++ b) = foodCount a + foodCount b := by
  simp [foodCount, List.filter_append]

/-- Food count of a cons cell. -/
theorem foodCount_cons (c : ColliderEnt) (l : List ColliderEnt) :
    foodCount (c :: l) = (if isFood c then 1 else 0) + foodCount l := by
  by_cases h : isFood c
  · simp [foodCount, List.filter_cons, h]
    omega
  · simp [foodCount, List.filter_cons, h]

/-- A spawned food carries the food tag. -/
theorem isFood_spawnFood (fx fy : ℚ) : isFood (spawnFood fx fy) = true := rfl

/-- The collider walk conserves the number of food entities: every
despawned food is replaced by exactly one spawned food. -/
theorem runCollisions_foodCount (sPos sSize : Vec2) (rng : RngStream)
    (l : List ColliderEnt) (i : ℕ) :
    foodCount (runCollisions sPos sSize rng l i).kept +
      foodCount (runCollisions sPos sSize rng l i).spawned = foodCount l := by
  induction l generalizing i with
  | nil => rfl
  | cons c rest ih =>
    by_cases hc : collide sPos sSize c.transform.translation c.transform.scale
    · by_cases hf : isFood c
      · simp only [runCollisions, hc, hf, if_true]
        rw [foodCount_cons, foodCount_cons]
        simp only [isFood_spawnFood, hf, if_true]
        have := ih (i + 1)
        omega
      · simp only [runCollisions, hc, hf, if_true, if_false, Bool.false_eq_true]
        rw [foodCount_cons, foodCount_cons]
        simp only [hf]
        have := ih i
        omega
    · simp only [runCollisions, hc, Bool.false_eq_true, if_false]
      rw [foodCount_cons, foodCount_cons]
      have := ih i
      omega

/-- When every live food overlaps the player, the collider walk keeps no
food (they are all despawned) and spawns one replacement per food. -/
theorem runCollisions_all_overlap (sPos sSize : Vec2) (rng : RngStream)
    (l : List ColliderEnt) (i : ℕ)
    (h : ∀ c ∈ l, isFood c = true →
        collide sPos sSize c.transform.translation c.transform.scale = true) :
    foodCount (runCollisions sPos sSize rng l i).kept = 0 ∧
    foodCount (runCollisions sPos sSize rng l i).spawned = foodCount l := by
  induction l generalizing i with
  | nil => exact ⟨rfl, rfl⟩
  | cons c rest ih =>
    have hrest : ∀ c' ∈ rest, isFood c' = true →
        collide sPos sSize c'.transform.translation c'.transform.scale = true :=
      fun c' hc' => h c' (List.mem_cons_of_mem c hc')
    by_cases hc : collide sPos sSize c.transform.translation c.transform.scale
    · by_cases hf : isFood c
      · simp only [runCollisions, hc, hf, if_true]
        have hi := ih (i + 1) hrest
        rw [foodCount_cons, foodCount_cons]
        simp only [isFood_spawnFood, hf, if_true]
        exact ⟨hi.1, by omega⟩
      · simp only [runCollisions, hc, hf, if_true, if_false, Bool.false_eq_true]
        have hi := ih i hrest
        rw [foodCount_cons, foodCount_cons]
        simp only [hf, Bool.false_eq_true, if_false]
        exact ⟨by omega, by omega⟩
    · have hcf : isFood c = false := by
        cases hfc : isFood c
        · rfl
        · exact absurd (h c (List.mem_cons_self c rest) hfc) hc
      simp only [runCollisions, hc, Bool.false_eq_true, if_false]
      have hi := ih i hrest
      rw [foodCount_cons, foodCount_cons, hcf]
      simp only [Bool.false_eq_true, if_false]
      exact ⟨by omega, by omega⟩

/-- The first two per-tick systems never touch the collider set. -/
theorem move_apply_colliders (keys : Keys) (g : GameState) :
    (apply_velocityS (move_snakeS keys g)).colliders = g.colliders := rfl

/-- One tick conserves the food count. -/
theorem tick_foodCount (keys : Keys) (g : GameState) :
    foodCount (tick keys g).colliders = foodCount g.colliders := by
  show foodCount ((runCollisions _ _ _ g.colliders _).kept ++
    (runCollisions _ _ _ g.colliders _).spawned) = foodCount g.colliders
  rw [foodCount_append, runCollisions_foodCount]

/-- C3: exactly one food entity exists at the start of every tick —
`setup` spawns one, every tick conserves the count, and along any tick
sequence from the initial state the count stays one; moreover whenever
the player overlaps every live food, the collision step despawns it
(zero foods among the kept colliders) and spawns exactly one replacement
within the same tick, so the count transitions 1 → 0 → 1. -/
theorem C3_one_food :
    (∀ rng : RngStream, foodCount (setup rng).colliders = 1) ∧
    (∀ (keys : Keys) (g : GameState), foodCount g.colliders = 1 →
        foodCount (tick keys g).colliders = 1) ∧
    (∀ (inputs : List Keys) (rng : RngStream),
        foodCount (runTicks inputs (setup rng)).colliders = 1) ∧
    (∀ (sPos sSize : Vec2) (rng : RngStream) (l : List ColliderEnt) (i : ℕ),
        foodCount l = 1 →
        (∀ c ∈ l, isFood c = true →
            collide sPos sSize c.transform.translation c.transform.scale = true) →
        foodCount (runCollisions sPos sSize rng l i).kept = 0 ∧
        foodCount (runCollisions sPos sSize rng l i).spawned = 1) := by
  have hsetup : ∀ rng : RngStream, foodCount (setup rng).colliders = 1 :=
    fun rng => rfl
  have htick : ∀ (keys : Keys) (g : GameState), foodCount g.colliders = 1 →
      foodCount (tick keys g).colliders = 1 :=
    fun keys g h => (tick_foodCount keys g).trans h
  refine ⟨hsetup, htick, ?_, ?_⟩
  · intro inputs rng
    suffices h : ∀ g : GameState, foodCount g.colliders = 1 →
        foodCount (runTicks inputs g).colliders = 1 from
      h (setup rng) (hsetup rng)
    induction inputs with
    | nil => exact fun g h => h
    | cons k ks ih => exact fun g h => ih (tick k g) (htick k g h)
  · intro sPos sSize rng l i h1 hov
    have h := runCollisions_all_overlap sPos sSize rng l i hov
    exact ⟨h.1, h.2.trans h1⟩

/-- Concrete evaluation of the food-count transitions at a player
exactly overlapping the single food. -/
theorem C3_witness :
    foodCount (tick noKeys (setup (constRng (100, 100)))).colliders = 1 ∧
    foodCount (runCollisions ⟨100, 100⟩ ⟨20, 20⟩ (constRng (0, 0))
      [spawnFood 100 100] 0).kept = 0 ∧
    foodCount (runCollisions ⟨100, 100⟩ ⟨20, 20⟩ (constRng (0, 0))
      [spawnFood 100 100] 0).spawned = 1 := by
  have h := C3_one_food
  have hov : ∀ c ∈ [spawnFood 100 100], isFood c = true →
      collide (⟨100, 100⟩ : Vec2) (⟨20, 20⟩ : Vec2)
        c.transform.translation c.transform.scale = true := by
    intro c hc hf
    rw [List.mem_singleton.mp hc]
    norm_num [collide, spawnFood, FOOD_SIZE]
  have hd := h.2.2.2 ⟨100, 100⟩ ⟨20, 20⟩ (constRng (0, 0))
    [spawnFood 100 100] 0 rfl hov
  exact ⟨h.2.1 noKeys (setup (constRng (100, 100))) (h.1 (constRng (100, 100))),
         hd.1, hd.2⟩

/-- C4, counterexample: `gen_range(-450.0..450.0)` and
`gen_range(-300.0..300.0)` are inclusive at the lower end, so the draw
`(-450, -300)` is possible, and the food it spawns sits exactly on the
left and bottom wall centerlines — not strictly inside the arena. -/
theorem C4_counterexample :
    gen_range (-450) 450 (-450) ∧ gen_range (-300) 300 (-300) ∧
    ¬ strictlyInsideArena (spawnFood (-450) (-300)).transform.translation := by
  refine ⟨⟨le_refl _, by norm_num⟩, ⟨le_refl _, by norm_num⟩, fun hcontra => ?_⟩
  have h1 := hcontra.1
  norm_num [spawnFood, LEFT_WALL] at h1

/-- C4, amended: after every food spawn or respawn, the food's position
satisfies `-450 ≤ x < 450` and `-300 ≤ y < 300`, each coordinate drawn
independently per axis; the position always lies in the closed arena,
but it may fall exactly on the left or bottom wall centerline, so it is
not always strictly inside. -/
theorem C4_amended (fx fy : ℚ)
    (hx : gen_range (-450) 450 fx) (hy : gen_range (-300) 300 fy) :
    (-450 ≤ (spawnFood fx fy).transform.translation.x ∧
     (spawnFood fx fy).transform.translation.x < 450 ∧
     -300 ≤ (spawnFood fx fy).transform.translation.y ∧
     (spawnFood fx fy).transform.translation.y < 300) ∧
    (LEFT_WALL ≤ (spawnFood fx fy).transform.translation.x ∧
     (spawnFood fx fy).transform.translation.x ≤ RIGHT_WALL ∧
     BOTTOM_WALL ≤ (spawnFood fx fy).transform.translation.y ∧
     (spawnFood fx fy).transform.translation.y ≤ TOP_WALL) := by
  obtain ⟨hx1, hx2⟩ := hx
  obtain ⟨hy1, hy2⟩ := hy
  have ex : (spawnFood fx fy).transform.translation.x = fx := rfl
  have ey : (spawnFood fx fy).transform.translation.y = fy := rfl
  rw [ex, ey]
  have eL : LEFT_WALL = -450 := rfl
  have eR : RIGHT_WALL = 450 := rfl
  have eB : BOTTOM_WALL = -300 := rfl
  have eT : TOP_WALL = 300 := rfl
  rw [eL, eR, eB, eT]
  exact ⟨⟨hx1, hx2, hy1, hy2⟩,
         ⟨hx1, le_of_lt hx2, hy1, le_of_lt hy2⟩⟩

/-- Concrete evaluation of the spawn range at the draw `(0, 0)`. -/
theorem C4_witness :
    gen_range (-450) 450 0 ∧ gen_range (-300) 300 0 ∧
    (-450 ≤ (spawnFood 0 0).transform.translation.x ∧
     (spawnFood 0 0).transform.translation.x < 450 ∧
     -300 ≤ (spawnFood 0 0).transform.translation.y ∧
     (spawnFood 0 0).transform.translation.y < 300) ∧
    (LEFT_WALL ≤ (spawnFood 0 0).transform.translation.x ∧
     (spawnFood 0 0).transform.translation.x ≤ RIGHT_WALL ∧
     BOTTOM_WALL ≤ (spawnFood 0 0).transform.translation.y ∧
     (spawnFood 0 0).transform.translation.y ≤ TOP_WALL) := by
  have h1 : gen_range (-450) 450 (0 : ℚ) := ⟨by norm_num, by norm_num⟩
  have h2 : gen_range (-300) 300 (0 : ℚ) := ⟨by norm_num, by norm_num⟩
  have h := C4_amended 0 0 h1 h2
  exact ⟨h1, h2, h.1, h.2⟩

/-- C5, counterexample: the point `(-450, 300)` lies in the interior of
both the left wall's rectangle and the top wall's rectangle, so the two
walls overlap with positive area at the corner — the four walls do not
tile the border without overlaps. -/
theorem C5_counterexample :
    inWallInterior WallLocation.Left ⟨-450, 300⟩ ∧
    inWallInterior WallLocation.Top ⟨-450, 300⟩ := by
  constructor <;>
    refine ⟨?_, ?_, ?_, ?_⟩ <;>
      norm_num [wallMin, wallMax, WallLocation.position, WallLocation.size,
        arena_height, arena_width, LEFT_WALL, RIGHT_WALL, TOP_WALL,
        BOTTOM_WALL, WALL_THICKNESS]

/-- C5, amended: the wall factory maps each side to the deterministic
center and size computed from the constants — for the defaults the left
wall spans `x ∈ [-455, -445]`, `y ∈ [-305, 305]`, left/right size is
`(10, 610)`, top/bottom size is `(910, 10)` — and the four walls cover
the border ring with no gaps; however they are not overlap-free:
left/right walls overlap top/bottom walls in the four 10 × 10 corner
squares. -/
theorem C5_amended :
    (wallMin WallLocation.Left = ⟨-455, -305⟩ ∧
     wallMax WallLocation.Left = ⟨-445, 305⟩ ∧
     wallMin WallLocation.Right = ⟨445, -305⟩ ∧
     wallMax WallLocation.Right = ⟨455, 305⟩ ∧
     wallMin WallLocation.Bottom = ⟨-455, -305⟩ ∧
     wallMax WallLocation.Bottom = ⟨455, -295⟩ ∧
     wallMin WallLocation.Top = ⟨-455, 295⟩ ∧
     wallMax WallLocation.Top = ⟨455, 305⟩ ∧
     WallLocation.size WallLocation.Left = ⟨10, 610⟩ ∧
     WallLocation.size WallLocation.Right = ⟨10, 610⟩ ∧
     WallLocation.size WallLocation.Bottom = ⟨910, 10⟩ ∧
     WallLocation.size WallLocation.Top = ⟨910, 10⟩) ∧
    (∀ p : Vec2, inFrameRing p → ∃ loc : WallLocation, inWall loc p) ∧
    (inWallInterior WallLocation.Left ⟨-450, 295.5⟩ ∧
     inWallInterior WallLocation.Top ⟨-450, 295.5⟩) := by
  refine ⟨?_, ?_, ?_⟩
  · refine ⟨?_, ?_, ?_, ?_, ?_, ?_, ?_, ?_, ?_, ?_, ?_, ?_⟩ <;>
      · show Vec2.mk _ _ = _
        norm_num [wallMin, wallMax, WallLocation.position, WallLocation.size,
          arena_height, arena_width, LEFT_WALL, RIGHT_WALL, TOP_WALL,
          BOTTOM_WALL, WALL_THICKNESS]
  · intro p hp
    obtain ⟨⟨ho1, ho2, ho3, ho4⟩, hinner⟩ := hp
    have eL : LEFT_WALL = -450 := rfl
    have eR : RIGHT_WALL = 450 := rfl
    have eB : BOTTOM_WALL = -300 := rfl
    have eT : TOP_WALL = 300 := rfl
    have eW : WALL_THICKNESS = 10 := rfl
    rw [eL, eW] at ho1
    rw [eR, eW] at ho2
    rw [eB, eW] at ho3
    rw [eT, eW] at ho4
    rw [eL, eR, eB, eT, eW] at hinner
    by_cases hx1 : p.x ≤ -445
    · refine ⟨WallLocation.Left, ?_, ?_, ?_, ?_⟩ <;>
        · norm_num [inWall, wallMin, wallMax, WallLocation.position,
            WallLocation.size, arena_height, arena_width, LEFT_WALL,
            RIGHT_WALL, TOP_WALL, BOTTOM_WALL, WALL_THICKNESS]
          linarith
    by_cases hx2 : 445 ≤ p.x
    · refine ⟨WallLocation.Right, ?_, ?_, ?_, ?_⟩ <;>
        · norm_num [inWall, wallMin, wallMax, WallLocation.position,
            WallLocation.size, arena_height, arena_width, LEFT_WALL,
            RIGHT_WALL, TOP_WALL, BOTTOM_WALL, WALL_THICKNESS]
          linarith
    by_cases hy1 : p.y ≤ -295
    · refine ⟨WallLocation.Bottom, ?_, ?_, ?_, ?_⟩ <;>
        · norm_num [inWall, wallMin, wallMax, WallLocation.position,
            WallLocation.size, arena_height, arena_width, LEFT_WALL,
            RIGHT_WALL, TOP_WALL, BOTTOM_WALL, WALL_THICKNESS]
          linarith
    by_cases hy2 : 295 ≤ p.y
    · refine ⟨WallLocation.Top, ?_, ?_, ?_, ?_⟩ <;>
        · norm_num [inWall, wallMin, wallMax, WallLocation.position,
            WallLocation.size, arena_height, arena_width, LEFT_WALL,
            RIGHT_WALL, TOP_WALL, BOTTOM_WALL, WALL_THICKNESS]
          linarith
    · exact absurd ⟨by norm_num at hx1 ⊢; linarith,
        by norm_num at hx2 ⊢; linarith,
        by norm_num at hy1 ⊢; linarith,
        by norm_num at hy2 ⊢; linarith⟩ hinner
  · constructor <;>
      refine ⟨?_, ?_, ?_, ?_⟩ <;>
        norm_num [wallMin, wallMax, WallLocation.position, WallLocation.size,
          arena_height, arena_width, LEFT_WALL, RIGHT_WALL, TOP_WALL,
          BOTTOM_WALL, WALL_THICKNESS]

/-- Concrete evaluation of the no-gaps coverage at the outer corner
point `(-455, -305)`. -/
theorem C5_witness :
    inFrameRing ⟨-455, -305⟩ ∧ ∃ loc : WallLocation, inWall loc ⟨-455, -305⟩ := by
  have hring : inFrameRing (⟨-455, -305⟩ : Vec2) := by
    refine ⟨⟨by norm_num [LEFT_WALL, WALL_THICKNESS],
            by norm_num [RIGHT_WALL, WALL_THICKNESS],
            by norm_num [BOTTOM_WALL, WALL_THICKNESS],
            by norm_num [TOP_WALL, WALL_THICKNESS]⟩, fun hcontra => ?_⟩
    have h1 := hcontra.1
    norm_num [LEFT_WALL, WALL_THICKNESS] at h1
  exact ⟨hring, C5_amended.2.1 ⟨-455, -305⟩ hring⟩

/-- C7, counterexample: the schedule that runs `apply_velocity` before
`move_snake` (and both before `check_for_collisions`) satisfies every
ordering constraint `main` declares — the code does not constrain the
relative order of the velocity update and motion integration, so motion
integration does not always run after the input-driven update. -/
theorem C7_counterexample :
    validSchedule [Sys.apply_velocity, Sys.move_snake, Sys.check_for_collisions] = true ∧
    ¬ ([Sys.apply_velocity, Sys.move_snake, Sys.check_for_collisions].indexOf
        Sys.move_snake <
       [Sys.apply_velocity, Sys.move_snake, Sys.check_for_collisions].indexOf
        Sys.apply_velocity) := by
  decide

/-- C7, amended: in every per-tick schedule the engine may choose, both
`move_snake` and `apply_velocity` run before `check_for_collisions`; the
relative order of `move_snake` and `apply_velocity` is unconstrained —
schedules with either relative order are valid. -/
theorem C7_amended (l : List Sys) (h : validSchedule l = true) :
    (l.indexOf Sys.move_snake < l.indexOf Sys.check_for_collisions ∧
     l.indexOf Sys.apply_velocity < l.indexOf Sys.check_for_collisions) ∧
    validSchedule [Sys.move_snake, Sys.apply_velocity, Sys.check_for_collisions] = true ∧
    validSchedule [Sys.apply_velocity, Sys.move_snake, Sys.check_for_collisions] = true := by
  refine ⟨?_, by decide, by decide⟩
  unfold validSchedule at h
  rw [Bool.and_eq_true] at h
  have h2 := h.2
  simp only [registeredBefore, List.all_cons, List.all_nil, Bool.and_eq_true,
    Nat.blt_eq] at h2
  exact ⟨h2.1, h2.2.1⟩

/-- Concrete evaluation of the declared ordering constraints at the
schedule that runs the systems in the spec's order. -/
theorem C7_witness :
    validSchedule [Sys.move_snake, Sys.apply_velocity, Sys.check_for_collisions] = true ∧
    ([Sys.move_snake, Sys.apply_velocity, Sys.check_for_collisions].indexOf
       Sys.move_snake <
     [Sys.move_snake, Sys.apply_velocity, Sys.check_for_collisions].indexOf
       Sys.check_for_collisions ∧
     [Sys.move_snake, Sys.apply_velocity, Sys.check_for_collisions].indexOf
       Sys.apply_velocity <
     [Sys.move_snake, Sys.apply_velocity, Sys.check_for_collisions].indexOf
       Sys.check_for_collisions) := by
  have h := C7_amended [Sys.move_snake, Sys.apply_velocity, Sys.check_for_collisions]
    (by decide)
  exact ⟨h.2.1, h.1⟩

/-- C8: the collision-detection step never modifies the player: on the
single-snake state it returns the snake transform (and velocity)
untouched for every collider configuration, and on the world level any
successful run leaves the snake entity list exactly as it was — wall
overlaps produce an event only, with no positional correction. -/
theorem C8_no_positional_correction :
    (∀ g : GameState, (check_for_collisionsS g).snakeT = g.snakeT ∧
        (check_for_collisionsS g).vel = g.vel) ∧
    (∀ w w' : World, check_for_collisionsW w = Except.ok w' →
        w'.snakes = w.snakes) := by
  constructor
  · exact fun g => ⟨rfl, rfl⟩
  · intro w w' h
    unfold check_for_collisionsW at h
    cases hq : querySingle w.snakes with
    | error e => rw [hq] at h; exact Except.noConfusion h
    | ok st =>
      rw [hq] at h
      cases h
      rfl

/-- Concrete evaluation of the collision step on a world with one snake
and no colliders. -/
theorem C8_witness :
    check_for_collisionsW w0 = Except.ok { w0 with colliders := [], events := 0 } ∧
    ({ w0 with colliders := [], events := 0 } : World).snakes = w0.snakes := by
  have h : check_for_collisionsW w0 =
      Except.ok { w0 with colliders := [], events := 0 } := rfl
  exact ⟨h, C8_no_positional_correction.2 w0 _ h⟩

/-- C9: both per-tick operations that query the single player entity
fail loudly instead of picking an arbitrary entity: `move_snake` and
`check_for_collisions` succeed exactly when the number of live snake
entities is one, and abort the tick with an error whenever it is zero
or greater than one. -/
theorem C9_single_player_query (keys : Keys) (w : World) :
    ((∃ w', move_snakeW keys w = Except.ok w') ↔ w.snakes.length = 1) ∧
    ((∃ w', check_for_collisionsW w = Except.ok w') ↔ w.snakes.length = 1) := by
  rcases hs : w.snakes with _ | ⟨a, _ | ⟨b, t⟩⟩
  · constructor <;> simp [move_snakeW, check_for_collisionsW, querySingle, hs]
  · constructor <;> simp [move_snakeW, check_for_collisionsW, querySingle, hs]
  · constructor <;> simp [move_snakeW, check_for_collisionsW, querySingle, hs]

end Snake
